import Mathlib

/-!
Verification of the cart/checkout orchestrator of the genesis-creator storefront
(`src/pages/Shop.tsx`) against the database schema and trigger of
`supabase/migrations/20251123121019_….sql`.

The embedding has three layers:

* a model of IEEE-754 binary64 ("JavaScript number") arithmetic over `ℚ`,
  used by the checkout total computation
  (`cartItems.reduce((sum, item) => sum + item.items.price * item.quantity, 0)`);
* a model of the persistent state (tables `carts`, `cart_items`, `orders`,
  `items`) with the UNIQUE constraints of the migration enforced at each
  INSERT/UPDATE, exactly as the hosted database would;
* the orchestrator operations of `Shop.tsx` (`loadOrCreateCart`, `addToCart`,
  `viewCart`, `viewOrderHistory`, `checkout`), each parameterised by an oracle
  of transport-level failures for the network calls it issues.  Constraint
  violations are determined by the state; the oracle models everything the
  client code observes only as a nonempty `error` field.
-/

/- ===================== binary64 arithmetic model ===================== -/

/-- Round a rational to the nearest integer, ties to even (the IEEE-754
default tie-breaking rule). -/
def roundNearestEven (x : ℚ) : ℤ :=
  if x - ⌊x⌋ < 1/2 then ⌊x⌋
  else if 1/2 < x - ⌊x⌋ then ⌊x⌋ + 1
  else if ⌊x⌋ % 2 = 0 then ⌊x⌋ else ⌊x⌋ + 1

/-- The binary64 value nearest to `q`: round to 53 significant bits,
round-to-nearest, ties-to-even.  The exponent is not clamped, i.e. overflow
and subnormal underflow are not modelled; both are unreachable for the
magnitudes a `DECIMAL(10,2)` price column can hold. -/
def roundDouble (q : ℚ) : ℚ :=
  if q = 0 then 0
  else (roundNearestEven (q * 2 ^ ((52:ℤ) - Int.log 2 |q|)) : ℚ)
         / 2 ^ ((52:ℤ) - Int.log 2 |q|)

/-- JavaScript `+` on numbers: exact sum, rounded to binary64. -/
def fadd (x y : ℚ) : ℚ := roundDouble (x + y)

/-- JavaScript `*` on numbers: exact product, rounded to binary64. -/
def fmul (x y : ℚ) : ℚ := roundDouble (x * y)

/-- The checkout total of `Shop.tsx`:
`cartItems.reduce((sum, item) => sum + item.items.price * item.quantity, 0)`.
A row is (price as stored in the `DECIMAL(10,2)` column, quantity).  The price
reaches JavaScript as the nearest binary64 value (`roundDouble r.1`); the
`INTEGER` quantity is below `2 ^ 53` and therefore exact. -/
def jsTotal (rows : List (ℚ × Nat)) : ℚ :=
  rows.foldl (fun sum r => fadd sum (fmul (roundDouble r.1) (r.2 : ℚ))) 0

/- ===================== persistent state model ===================== -/

/-- Row of `public.carts`: `id`, `user_id`, `status TEXT` with
`UNIQUE(user_id, status)`.  UUID keys are modelled as naturals drawn from a
single allocator. -/
structure CartRow where
  id : Nat
  user_id : Nat
  status : String
deriving DecidableEq

/-- Row of `public.cart_items`: `UNIQUE(cart_id, item_id)`, `quantity INTEGER
NOT NULL DEFAULT 1`. -/
structure CartItemRow where
  id : Nat
  cart_id : Nat
  item_id : Nat
  quantity : Nat
deriving DecidableEq

/-- Row of `public.items`: `price DECIMAL(10,2)` held exactly as a rational. -/
structure ItemRow where
  id : Nat
  price : ℚ
  status : String
deriving DecidableEq

/-- Row of `public.orders`. -/
structure OrderRow where
  id : Nat
  user_id : Nat
  cart_id : Nat
  total : ℚ
  status : String
deriving DecidableEq

/-- The visible persistent state, plus a fresh-id allocator standing in for
`uuid_generate_v4()`. -/
structure DBState where
  items : List ItemRow
  carts : List CartRow
  cartItems : List CartItemRow
  orders : List OrderRow
  nextId : Nat
deriving DecidableEq

/-- The INSERT admission test of `UNIQUE(user_id, status)` on `carts`: a new
row for this pair is accepted iff no existing row carries the same pair. -/
abbrev cartsInsertOK (carts : List CartRow) (uid : Nat) (st : String) : Prop :=
  ∀ c ∈ carts, ¬(c.user_id = uid ∧ c.status = st)

/-- The INSERT admission test of `UNIQUE(cart_id, item_id)` on `cart_items`. -/
abbrev cartItemsInsertOK (rows : List CartItemRow) (cid iid : Nat) : Prop :=
  ∀ r ∈ rows, ¬(r.cart_id = cid ∧ r.item_id = iid)

/-- The row rewrite performed by
`UPDATE carts SET status = st WHERE id = cid` on one row. -/
def updRow (cid : Nat) (st : String) (c : CartRow) : CartRow :=
  if c.id = cid then { c with status := st } else c

/-- `UPDATE carts SET status = st WHERE id = cid`.  The statement fails as a
whole — leaving the table unchanged — when an updated row would collide with
another row on `UNIQUE(user_id, status)`; matching no row at all is a
successful no-op. -/
def updateCartStatus (carts : List CartRow) (cid : Nat) (st : String) : List CartRow :=
  if ∀ u ∈ carts, u.id = cid → ∀ d ∈ carts, d.id = cid ∨ ¬(d.user_id = u.user_id ∧ d.status = st) then
    carts.map (updRow cid st)
  else carts

/- ===================== orchestrator operations ===================== -/

/-- Transport-level failure of the two network calls `loadOrCreateCart`
issues.  A constraint violation of the INSERT is determined by the state and
is modelled separately. -/
structure LoadCartOracle where
  lookupFails : Bool
  insertFails : Bool

inductive LoadCartOutcome
  | loaded (cid : Nat)
  | created (cid : Nat)
  | failedCreateCart
deriving DecidableEq

/-- `loadOrCreateCart` of `Shop.tsx`.  The lookup destructures only `data`
(`const { data: existingCart } = await …maybeSingle()`), so a failed read is
indistinguishable from "no row" and falls through to the INSERT branch. -/
def loadOrCreateCart (db : DBState) (uid : Nat) (o : LoadCartOracle) :
    DBState × LoadCartOutcome :=
  match (if o.lookupFails = true then none
         else db.carts.find? fun c => c.user_id == uid && c.status == "active") with
  | some c => (db, .loaded c.id)
  | none =>
    if o.insertFails = true ∨ ¬ cartsInsertOK db.carts uid ("active") then
      (db, .failedCreateCart)
    else
      ({ db with carts := db.carts ++ [⟨db.nextId, uid, "active"⟩],
                 nextId := db.nextId + 1 },
       .created db.nextId)

structure AddOracle where
  lookupFails : Bool
  insertFails : Bool

inductive AddOutcome
  | alreadyInCart
  | added
  | failedAdd
deriving DecidableEq

/-- `addToCart` of `Shop.tsx`: query for an existing `(cart_id, item_id)` row
(error field discarded); if present report "Item already in cart" and stop,
otherwise INSERT a row with `quantity: 1`. -/
def addToCart (db : DBState) (cid iid : Nat) (o : AddOracle) : DBState × AddOutcome :=
  match (if o.lookupFails = true then none
         else db.cartItems.find? fun r => r.cart_id == cid && r.item_id == iid) with
  | some _ => (db, .alreadyInCart)
  | none =>
    if o.insertFails = true ∨ ¬ cartItemsInsertOK db.cartItems cid iid then
      (db, .failedAdd)
    else
      ({ db with cartItems := db.cartItems ++ [⟨db.nextId, cid, iid, 1⟩],
                 nextId := db.nextId + 1 },
       .added)

inductive ViewCartOutcome
  | failedLoad
  | emptyCart
  | itemList (n : Nat)
deriving DecidableEq

/-- `viewCart` of `Shop.tsx`: on query error an error toast, on empty result
the informational "Your cart is empty", otherwise the item list. -/
def viewCart (db : DBState) (cid : Nat) (fails : Bool) : ViewCartOutcome :=
  if fails = true then .failedLoad
  else
    let rows := db.cartItems.filter fun r => r.cart_id == cid
    if rows = [] then .emptyCart else .itemList rows.length

inductive OrdersOutcome
  | failedLoad
  | noOrders
  | history (n : Nat)
deriving DecidableEq

/-- `viewOrderHistory` of `Shop.tsx`: error toast on failure, informational
"No orders yet" on an empty result, otherwise the order list. -/
def viewOrderHistory (db : DBState) (uid : Nat) (fails : Bool) : OrdersOutcome :=
  if fails = true then .failedLoad
  else
    let rows := db.orders.filter fun r => r.user_id == uid
    if rows = [] then .noOrders else .history rows.length

inductive ItemsOutcome
  | failedLoad
  | itemsLoaded (n : Nat)
deriving DecidableEq

/-- `loadItems` of `Shop.tsx`: error toast on failure; an empty result renders
the explicit "No items available" empty state, not an error. -/
def loadItems (db : DBState) (fails : Bool) : ItemsOutcome :=
  if fails = true then .failedLoad
  else .itemsLoaded (db.items.filter fun it => it.status == "active").length

structure CheckoutOracle where
  fetchFails : Bool
  orderInsertFails : Bool
  updateFails : Bool
  newCartInsertFails : Bool

inductive CheckoutOutcome
  | cartEmpty
  | failedCreateOrder
  | orderSuccessful (newCartId : Option Nat)
deriving DecidableEq

/-- Step 1 of checkout: the `cart_items` rows of the cart, each joined to the
price of its item (`select item_id, quantity, items (price)`). -/
def fetchCartRows (db : DBState) (cid : Nat) : List (ℚ × Nat) :=
  (db.cartItems.filter fun r => r.cart_id == cid).map fun r =>
    (((db.items.find? fun it => it.id == r.item_id).map ItemRow.price).getD 0, r.quantity)

/-- Step 3 of checkout: INSERT the order row
(`user_id, cart_id, total, status: "completed"`). -/
def checkoutStep3 (db : DBState) (uid cid : Nat) (total : ℚ) : DBState :=
  { db with orders := db.orders ++ [⟨db.nextId, uid, cid, total, "completed"⟩],
            nextId := db.nextId + 1 }

/-- Step 4 of checkout: `UPDATE carts SET status = checked_out` with the
result ignored (`await supabase…` with no error check), so a transport or
constraint failure leaves the cart untouched and the flow continues. -/
def checkoutStep4 (db : DBState) (cid : Nat) (o : CheckoutOracle) : DBState :=
  if o.updateFails = true then db
  else { db with carts := updateCartStatus db.carts cid ("checked_out") }

/-- Step 5 of checkout: INSERT a fresh active cart; on any failure `newCart`
is null, the current cart id is kept, and the success toast still fires. -/
def checkoutStep5 (db : DBState) (uid : Nat) (o : CheckoutOracle) :
    DBState × CheckoutOutcome :=
  if o.newCartInsertFails = true ∨ ¬ cartsInsertOK db.carts uid ("active") then
    (db, .orderSuccessful none)
  else
    ({ db with carts := db.carts ++ [⟨db.nextId, uid, "active"⟩],
               nextId := db.nextId + 1 },
     .orderSuccessful (some db.nextId))

/-- `checkout` of `Shop.tsx`: fetch the rows (a failed fetch and an empty cart
both abort with the "Cart is empty" error toast), compute the total with
JavaScript float arithmetic, insert the order (aborting on failure), then run
the unguarded steps 4 and 5. -/
def checkout (db : DBState) (uid cid : Nat) (o : CheckoutOracle) :
    DBState × CheckoutOutcome :=
  if o.fetchFails = true ∨ fetchCartRows db cid = [] then (db, .cartEmpty)
  else if o.orderInsertFails = true then (db, .failedCreateOrder)
  else checkoutStep5
         (checkoutStep4 (checkoutStep3 db uid cid (jsTotal (fetchCartRows db cid))) cid o)
         uid o

/- ===================== invariants ===================== -/

/-- The `UNIQUE(user_id, status)` invariant on `carts`: two rows with the same
owner and the same status are the same row. -/
abbrev cartsPairUnique (l : List CartRow) : Prop :=
  ∀ a ∈ l, ∀ b ∈ l, a.user_id = b.user_id → a.status = b.status → a.id = b.id

/-- Primary-key uniqueness on `carts`. -/
abbrev cartsIdInj (l : List CartRow) : Prop :=
  ∀ a ∈ l, ∀ b ∈ l, a.id = b.id → a = b

/-- The `UNIQUE(cart_id, item_id)` invariant on `cart_items`. -/
abbrev itemsPairUnique (l : List CartItemRow) : Prop :=
  ∀ a ∈ l, ∀ b ∈ l, a.cart_id = b.cart_id → a.item_id = b.item_id → a.id = b.id

/-- Primary-key uniqueness on `cart_items`. -/
abbrev itemsIdInj (l : List CartItemRow) : Prop :=
  ∀ a ∈ l, ∀ b ∈ l, a.id = b.id → a = b

/-- Well-formedness of the state: both UNIQUE constraints hold, ids are keys,
and the allocator is ahead of every allocated id. -/
abbrev dbWF (db : DBState) : Prop :=
  cartsPairUnique db.carts ∧ cartsIdInj db.carts ∧ (∀ a ∈ db.carts, a.id < db.nextId) ∧
  itemsPairUnique db.cartItems ∧ itemsIdInj db.cartItems ∧
  (∀ a ∈ db.cartItems, a.id < db.nextId)

/-- At most one cart with `status = active` per user. -/
abbrev atMostOneActive (db : DBState) : Prop :=
  ∀ a ∈ db.carts, ∀ b ∈ db.carts, a.user_id = b.user_id →
    a.status = "active" → b.status = "active" → a.id = b.id

/-- At most one cart with `status = checked_out` per user. -/
abbrev atMostOneCheckedOut (db : DBState) : Prop :=
  ∀ a ∈ db.carts, ∀ b ∈ db.carts, a.user_id = b.user_id →
    a.status = "checked_out" → b.status = "checked_out" → a.id = b.id

/- ===================== signup hook (handle_new_user) ===================== -/

/-- Row of `public.profiles`: `username TEXT UNIQUE NOT NULL`. -/
structure ProfileRow where
  id : Nat
  username : String
deriving DecidableEq

/-- The SQL function `split_part(email, at-sign, 1)`: the text before the first `@`, the
whole string when no `@` occurs. -/
def splitPartLocal (s : String) : String := (s.splitOn ("@")).headD ("")

/-- The username computed by `handle_new_user`:
`COALESCE(new.raw_user_meta_data ->> username, split_part(new.email, at-sign, 1))`.
`split_part` is strict, so a NULL email contributes NULL, and no further
default exists in the function. -/
def computedUsername (metaUsername email : Option String) : Option String :=
  match metaUsername with
  | some u => some u
  | none => email.map splitPartLocal

/-- The trigger body of `handle_new_user`:
`INSERT INTO public.profiles (id, username) VALUES (new.id, COALESCE(…))`.
The insert errors — and no profile row appears — when the computed username is
NULL (`username TEXT NOT NULL`) or collides with an existing one (`UNIQUE`). -/
def handle_new_user (profiles : List ProfileRow) (uid : Nat)
    (metaUsername email : Option String) : Option (List ProfileRow) :=
  match computedUsername metaUsername email with
  | none => none
  | some u =>
    if ∀ p ∈ profiles, p.username ≠ u then some (profiles ++ [⟨uid, u⟩]) else none

/- ===================== concrete states ===================== -/

/-- An oracle under which every network call of a checkout succeeds. -/
def okOracle : CheckoutOracle := ⟨false, false, false, false⟩

/-- An empty database with the allocator at 1. -/
def dbEmpty : DBState := ⟨[], [], [], [], 1⟩

/-- A user (id 0) with one active cart (id 1) holding one unit of item 10
(79.99): the state just before a first checkout. -/
def dbFirst : DBState :=
  ⟨[⟨10, 79.99, "active"⟩], [⟨1, 0, "active"⟩], [⟨2, 1, 10, 1⟩], [], 3⟩

/-- The same user after one completed checkout: cart 1 is checked out, order 3
recorded it, cart 2 is the fresh active cart and holds one unit of item 10 —
the state just before the second checkout. -/
def dbSecond : DBState :=
  ⟨[⟨10, 79.99, "active"⟩],
   [⟨1, 0, "checked_out"⟩, ⟨2, 0, "active"⟩],
   [⟨4, 2, 10, 1⟩],
   [⟨3, 0, 1, 79.99, "completed"⟩],
   5⟩

/-- A user (id 0) with an active cart (id 1) that holds no items. -/
def dbBare : DBState := ⟨[⟨10, 79.99, "active"⟩], [⟨1, 0, "active"⟩], [], [], 2⟩

/-- Number of `cart_items` rows carrying a given `(cart_id, item_id)` pair. -/
def pairCount (rows : List CartItemRow) (cid iid : Nat) : Nat :=
  (rows.filter fun r => r.cart_id == cid && r.item_id == iid).length

/- ===================== lemmas ===================== -/

lemma log2_eq_of_bounds (e : ℤ) {r : ℚ} (hr : 0 < r)
    (h1 : (2:ℚ) ^ e ≤ r) (h2 : r < (2:ℚ) ^ (e + 1)) : Int.log 2 r = e := by
  have hb : 1 < (2:ℕ) := by norm_num
  have ha : e ≤ Int.log 2 r := (Int.zpow_le_iff_le_log hb hr).1 (by exact_mod_cast h1)
  have hc : Int.log 2 r < e + 1 := (Int.lt_zpow_iff_log_lt hb hr).1 (by exact_mod_cast h2)
  omega

lemma rne_low {x : ℚ} {f : ℤ} (h1 : (f:ℚ) ≤ x) (h2 : x < f + 1/2) :
    roundNearestEven x = f := by
  have hf : ⌊x⌋ = f := by
    rw [Int.floor_eq_iff]
    exact ⟨h1, by linarith⟩
  simp only [roundNearestEven, hf]
  rw [if_pos (by linarith)]

lemma rne_high {x : ℚ} {f : ℤ} (h1 : (f:ℚ) + 1/2 < x) (h2 : x < f + 1) :
    roundNearestEven x = f + 1 := by
  have hf : ⌊x⌋ = f := by
    rw [Int.floor_eq_iff]
    exact ⟨by linarith, by linarith⟩
  simp only [roundNearestEven, hf]
  rw [if_neg (by linarith), if_pos (by linarith)]

lemma rne_tie_even {x : ℚ} {f : ℤ} (h : x = (f:ℚ) + 1/2) (he : f % 2 = 0) :
    roundNearestEven x = f := by
  have hf : ⌊x⌋ = f := by
    rw [Int.floor_eq_iff]
    exact ⟨by linarith, by linarith⟩
  simp only [roundNearestEven, hf]
  rw [if_neg (by linarith), if_neg (by linarith), if_pos he]

lemma rd7999 : roundDouble (7999/100 : ℚ) = 5628795846771343 / 70368744177664 := by
  have he : Int.log 2 |(7999/100 : ℚ)| = 6 := by
    rw [abs_of_pos (by norm_num)]
    exact log2_eq_of_bounds 6 (by norm_num) (by norm_num) (by norm_num)
  have hrne : roundNearestEven ((7999/100 : ℚ) * 2 ^ ((52:ℤ) - 6)) = 5628795846771343 := by
    apply rne_low (f := 5628795846771343) <;> norm_num
  rw [roundDouble, if_neg (by norm_num), he, hrne]
  norm_num

lemma rd3499 : roundDouble (3499/100 : ℚ) = 4924404717552927 / 140737488355328 := by
  have he : Int.log 2 |(3499/100 : ℚ)| = 5 := by
    rw [abs_of_pos (by norm_num)]
    exact log2_eq_of_bounds 5 (by norm_num) (by norm_num) (by norm_num)
  have hrne : roundNearestEven ((3499/100 : ℚ) * 2 ^ ((52:ℤ) - 5)) = 4924404717552927 := by
    have h := rne_high (x := (3499/100 : ℚ) * 2 ^ ((52:ℤ) - 5)) (f := 4924404717552926)
      (by norm_num) (by norm_num)
    rw [h]; norm_num
  rw [roundDouble, if_neg (by norm_num), he, hrne]
  norm_num

lemma rd_p1 : roundDouble (5628795846771343 / 70368744177664 : ℚ)
    = 5628795846771343 / 70368744177664 := by
  have he : Int.log 2 |(5628795846771343 / 70368744177664 : ℚ)| = 6 := by
    rw [abs_of_pos (by norm_num)]
    exact log2_eq_of_bounds 6 (by norm_num) (by norm_num) (by norm_num)
  have hrne : roundNearestEven ((5628795846771343 / 70368744177664 : ℚ) * 2 ^ ((52:ℤ) - 6))
      = 5628795846771343 := by
    apply rne_low (f := 5628795846771343) <;> norm_num
  rw [roundDouble, if_neg (by norm_num), he, hrne]
  norm_num

lemma rd_p2 : roundDouble (4924404717552927 / 140737488355328 : ℚ)
    = 4924404717552927 / 140737488355328 := by
  have he : Int.log 2 |(4924404717552927 / 140737488355328 : ℚ)| = 5 := by
    rw [abs_of_pos (by norm_num)]
    exact log2_eq_of_bounds 5 (by norm_num) (by norm_num) (by norm_num)
  have hrne : roundNearestEven ((4924404717552927 / 140737488355328 : ℚ) * 2 ^ ((52:ℤ) - 5))
      = 4924404717552927 := by
    apply rne_low (f := 4924404717552927) <;> norm_num
  rw [roundDouble, if_neg (by norm_num), he, hrne]
  norm_num

lemma rd_sum : roundDouble
      (5628795846771343 / 70368744177664 + 4924404717552927 / 140737488355328 : ℚ)
    = 4045499102773903 / 35184372088832 := by
  have he : Int.log 2
      |(5628795846771343 / 70368744177664 + 4924404717552927 / 140737488355328 : ℚ)| = 6 := by
    rw [abs_of_pos (by norm_num)]
    exact log2_eq_of_bounds 6 (by norm_num) (by norm_num) (by norm_num)
  have hrne : roundNearestEven
      ((5628795846771343 / 70368744177664 + 4924404717552927 / 140737488355328 : ℚ)
        * 2 ^ ((52:ℤ) - 6)) = 8090998205547806 := by
    apply rne_tie_even (f := 8090998205547806) (by norm_num) (by norm_num)
  rw [roundDouble, if_neg (by norm_num), he, hrne]
  norm_num

/-- The binary64 evaluation of the reduce over the two-row cart named in the
specification: item A priced 79.99, item B priced 34.99, each with quantity 1. -/
lemma jsTotal_example :
    jsTotal [((79.99 : ℚ), 1), ((34.99 : ℚ), 1)] = 4045499102773903 / 35184372088832 := by
  have h99 : (79.99 : ℚ) = 7999/100 := by norm_num
  have h34 : (34.99 : ℚ) = 3499/100 := by norm_num
  simp only [jsTotal, List.foldl, fadd, fmul, Nat.cast_one, mul_one, zero_add,
    h99, h34, rd7999, rd3499, rd_p1, rd_p2, rd_sum]

lemma atMostOneActive_of_wf {db : DBState} (h : dbWF db) : atMostOneActive db :=
  fun a ha b hb hu hsa hsb => h.1 a ha b hb hu (hsa.trans hsb.symm)

lemma atMostOneCheckedOut_of_wf {db : DBState} (h : dbWF db) : atMostOneCheckedOut db :=
  fun a ha b hb hu hsa hsb => h.1 a ha b hb hu (hsa.trans hsb.symm)

/-- Appending one row preserves a binary property that held pairwise, given
the property against the new row in both directions. -/
lemma pairProp_append {α : Type} {P : α → α → Prop} {l : List α} {x : α}
    (h : ∀ a ∈ l, ∀ b ∈ l, P a b) (hxl : ∀ a ∈ l, P a x) (hlx : ∀ a ∈ l, P x a)
    (hxx : P x x) : ∀ a ∈ l ++ [x], ∀ b ∈ l ++ [x], P a b := by
  intro a ha b hb
  rcases List.mem_append.1 ha with ha | ha <;> rcases List.mem_append.1 hb with hb | hb
  · exact h a ha b hb
  · rw [List.mem_singleton.1 hb]; exact hxl a ha
  · rw [List.mem_singleton.1 ha]; exact hlx b hb
  · rw [List.mem_singleton.1 ha, List.mem_singleton.1 hb]; exact hxx

lemma updRow_id (cid : Nat) (st : String) (c : CartRow) : (updRow cid st c).id = c.id := by
  unfold updRow; split <;> rfl

lemma updRow_user (cid : Nat) (st : String) (c : CartRow) :
    (updRow cid st c).user_id = c.user_id := by
  unfold updRow; split <;> rfl

lemma updateCartStatus_pairUnique {l : List CartRow} {cid : Nat} {st : String}
    (h1 : cartsPairUnique l) (h2 : cartsIdInj l) :
    cartsPairUnique (updateCartStatus l cid st) := by
  unfold updateCartStatus
  split
  case isTrue hg =>
    intro x hx y hy huser hstatus
    obtain ⟨a, ha, rfl⟩ := List.mem_map.1 hx
    obtain ⟨b, hb, rfl⟩ := List.mem_map.1 hy
    rw [updRow_id, updRow_id]
    rw [updRow_user, updRow_user] at huser
    by_cases hac : a.id = cid <;> by_cases hbc : b.id = cid
    · rw [hac, hbc]
    · have hsa : (updRow cid st a).status = st := by unfold updRow; rw [if_pos hac]
      have hsb : (updRow cid st b).status = b.status := by unfold updRow; rw [if_neg hbc]
      rw [hsa, hsb] at hstatus
      rcases hg a ha hac b hb with h | h
      · exact absurd h hbc
      · exact absurd ⟨huser.symm, hstatus.symm⟩ h
    · have hsa : (updRow cid st a).status = a.status := by unfold updRow; rw [if_neg hac]
      have hsb : (updRow cid st b).status = st := by unfold updRow; rw [if_pos hbc]
      rw [hsa, hsb] at hstatus
      rcases hg b hb hbc a ha with h | h
      · exact absurd h hac
      · exact absurd ⟨huser, hstatus⟩ h
    · have hsa : (updRow cid st a).status = a.status := by unfold updRow; rw [if_neg hac]
      have hsb : (updRow cid st b).status = b.status := by unfold updRow; rw [if_neg hbc]
      rw [hsa, hsb] at hstatus
      exact h1 a ha b hb huser hstatus
  case isFalse => exact h1

lemma updateCartStatus_idInj {l : List CartRow} {cid : Nat} {st : String}
    (h2 : cartsIdInj l) : cartsIdInj (updateCartStatus l cid st) := by
  unfold updateCartStatus
  split
  case isTrue hg =>
    intro x hx y hy hid
    obtain ⟨a, ha, rfl⟩ := List.mem_map.1 hx
    obtain ⟨b, hb, rfl⟩ := List.mem_map.1 hy
    rw [updRow_id, updRow_id] at hid
    rw [h2 a ha b hb hid]
  case isFalse => exact h2

lemma updateCartStatus_ids {l : List CartRow} {cid : Nat} {st : String} :
    ∀ a ∈ updateCartStatus l cid st, ∃ b ∈ l, a.id = b.id := by
  unfold updateCartStatus
  split
  · intro x hx
    obtain ⟨a, ha, rfl⟩ := List.mem_map.1 hx
    exact ⟨a, ha, updRow_id cid _ a⟩
  · intro a ha; exact ⟨a, ha, rfl⟩

/- ===================== preservation of well-formedness ===================== -/

lemma insertCart_wf {db : DBState} {uid : Nat} {st : String} (h : dbWF db)
    (hok : cartsInsertOK db.carts uid st) :
    dbWF { db with carts := db.carts ++ [⟨db.nextId, uid, st⟩],
                   nextId := db.nextId + 1 } := by
  obtain ⟨h1, h2, h3, h4, h5, h6⟩ := h
  refine ⟨?_, ?_, ?_, h4, h5, fun a ha => Nat.lt_succ_of_lt (h6 a ha)⟩
  · exact pairProp_append h1
      (fun a ha hu hs => absurd ⟨hu, hs⟩ (hok a ha))
      (fun a ha hu hs => absurd ⟨hu.symm, hs.symm⟩ (hok a ha))
      (fun _ _ => rfl)
  · exact pairProp_append h2
      (fun a ha hid => absurd hid (Nat.ne_of_lt (h3 a ha)))
      (fun a ha hid => absurd hid.symm (Nat.ne_of_lt (h3 a ha)))
      (fun _ => rfl)
  · intro a ha
    rcases List.mem_append.1 ha with ha | ha
    · exact Nat.lt_succ_of_lt (h3 a ha)
    · rw [List.mem_singleton.1 ha]; exact Nat.lt_succ_self _

lemma insertCartItem_wf {db : DBState} {cid iid : Nat} (h : dbWF db)
    (hok : cartItemsInsertOK db.cartItems cid iid) :
    dbWF { db with cartItems := db.cartItems ++ [⟨db.nextId, cid, iid, 1⟩],
                   nextId := db.nextId + 1 } := by
  obtain ⟨h1, h2, h3, h4, h5, h6⟩ := h
  refine ⟨h1, h2, fun a ha => Nat.lt_succ_of_lt (h3 a ha), ?_, ?_, ?_⟩
  · exact pairProp_append h4
      (fun a ha hc hi => absurd ⟨hc, hi⟩ (hok a ha))
      (fun a ha hc hi => absurd ⟨hc.symm, hi.symm⟩ (hok a ha))
      (fun _ _ => rfl)
  · exact pairProp_append h5
      (fun a ha hid => absurd hid (Nat.ne_of_lt (h6 a ha)))
      (fun a ha hid => absurd hid.symm (Nat.ne_of_lt (h6 a ha)))
      (fun _ => rfl)
  · intro a ha
    rcases List.mem_append.1 ha with ha | ha
    · exact Nat.lt_succ_of_lt (h6 a ha)
    · rw [List.mem_singleton.1 ha]; exact Nat.lt_succ_self _

lemma checkoutStep3_wf {db : DBState} {uid cid : Nat} {total : ℚ} (h : dbWF db) :
    dbWF (checkoutStep3 db uid cid total) := by
  obtain ⟨h1, h2, h3, h4, h5, h6⟩ := h
  exact ⟨h1, h2, fun a ha => Nat.lt_succ_of_lt (h3 a ha), h4, h5,
         fun a ha => Nat.lt_succ_of_lt (h6 a ha)⟩

lemma updateCarts_wf {db : DBState} {cid : Nat} {st : String} (h : dbWF db) :
    dbWF { db with carts := updateCartStatus db.carts cid st } := by
  obtain ⟨h1, h2, h3, h4, h5, h6⟩ := h
  refine ⟨updateCartStatus_pairUnique h1 h2, updateCartStatus_idInj h2, ?_, h4, h5, h6⟩
  intro a ha
  obtain ⟨b, hb, hab⟩ := updateCartStatus_ids a ha
  rw [hab]; exact h3 b hb

lemma checkoutStep4_wf {db : DBState} {cid : Nat} {o : CheckoutOracle} (h : dbWF db) :
    dbWF (checkoutStep4 db cid o) := by
  unfold checkoutStep4
  split
  · exact h
  · exact updateCarts_wf h

lemma checkoutStep5_wf {db : DBState} {uid : Nat} {o : CheckoutOracle} (h : dbWF db) :
    dbWF (checkoutStep5 db uid o).1 := by
  unfold checkoutStep5
  split
  case isTrue => exact h
  case isFalse hg =>
    push_neg at hg
    exact insertCart_wf h hg.2

lemma loadOrCreateCart_wf {db : DBState} {uid : Nat} {o : LoadCartOracle} (h : dbWF db) :
    dbWF (loadOrCreateCart db uid o).1 := by
  unfold loadOrCreateCart
  split
  · exact h
  · split
    case isTrue => exact h
    case isFalse hg =>
      push_neg at hg
      exact insertCart_wf h hg.2

lemma addToCart_wf {db : DBState} {cid iid : Nat} {o : AddOracle} (h : dbWF db) :
    dbWF (addToCart db cid iid o).1 := by
  unfold addToCart
  split
  · exact h
  · split
    case isTrue => exact h
    case isFalse hg =>
      push_neg at hg
      exact insertCartItem_wf h hg.2

lemma checkout_wf {db : DBState} {uid cid : Nat} {o : CheckoutOracle} (h : dbWF db) :
    dbWF (checkout db uid cid o).1 := by
  unfold checkout
  split
  · exact h
  · split
    · exact h
    · exact checkoutStep5_wf (checkoutStep4_wf (checkoutStep3_wf h))


/- ===================== cart_items pair lemmas ===================== -/

lemma pairCount_zero_iff {rows : List CartItemRow} {cid iid : Nat} :
    pairCount rows cid iid = 0 ↔
      (rows.find? fun r => r.cart_id == cid && r.item_id == iid) = none := by
  rw [pairCount, List.length_eq_zero, List.filter_eq_nil_iff, List.find?_eq_none]

lemma pairCount_zero_insertOK {rows : List CartItemRow} {cid iid : Nat}
    (h : pairCount rows cid iid = 0) : cartItemsInsertOK rows cid iid := by
  rw [pairCount, List.length_eq_zero, List.filter_eq_nil_iff] at h
  intro r hr hpair
  exact h r hr (by simp [hpair.1, hpair.2])

lemma pairCount_ne_zero_exists {rows : List CartItemRow} {cid iid : Nat}
    (h : pairCount rows cid iid ≠ 0) :
    ∃ r ∈ rows, r.cart_id = cid ∧ r.item_id = iid := by
  rw [pairCount] at h
  have hne : rows.filter (fun r => r.cart_id == cid && r.item_id == iid) ≠ [] := by
    intro hnil; rw [hnil] at h; exact h rfl
  rcases List.exists_mem_of_ne_nil _ hne with ⟨r, hr⟩
  rcases List.mem_filter.1 hr with ⟨hmem, hp⟩
  simp only [Bool.and_eq_true, beq_iff_eq] at hp
  exact ⟨r, hmem, hp⟩

lemma pairCount_append_match {rows : List CartItemRow} {cid iid : Nat}
    (x : CartItemRow) (hc : x.cart_id = cid) (hi : x.item_id = iid) :
    pairCount (rows ++ [x]) cid iid = pairCount rows cid iid + 1 := by
  rw [pairCount, pairCount, List.filter_append, List.length_append]
  simp [List.filter, hc, hi]

/-- A state whose cart already holds the pair is left untouched by a repeat
add, whatever the oracle: a successful lookup reports "already in cart", a
failed lookup falls through to an INSERT that the
`UNIQUE(cart_id, item_id)` constraint rejects. -/
lemma addToCart_existing_noop {db : DBState} {cid iid : Nat} {o : AddOracle}
    (h : pairCount db.cartItems cid iid ≠ 0) : (addToCart db cid iid o).1 = db := by
  unfold addToCart
  cases hE : (if o.lookupFails = true then none
              else db.cartItems.find? fun r => r.cart_id == cid && r.item_id == iid) with
  | some r => rfl
  | none =>
    simp only
    split
    · rfl
    case isFalse hg =>
      push_neg at hg
      obtain ⟨r, hr, hrc, hri⟩ := pairCount_ne_zero_exists h
      exact absurd ⟨hrc, hri⟩ (hg.2 r hr)

/- ===================== claims ===================== -/

/-- C1: the claim reads "for every user with a non-empty active cart, a
successful checkout leaves the prior cart checked out, creates exactly one
order row and leaves exactly one new active cart whose id is adopted —
including the second and later checkouts of the same user".  Evaluating the
code at a second checkout refutes the second part: with every network call
succeeding, the first checkout behaves as claimed, but the second checkout of
the same user reports success and inserts its order while the status UPDATE
and the fresh-cart INSERT are both rejected by `UNIQUE(user_id, status)`
(an earlier checked_out cart exists) and silently ignored: the cart stays
active, no new cart appears, and no new id is adopted. -/
theorem secondCheckoutLeavesStaleActiveCart :
    (checkout dbFirst 0 1 okOracle).2 = CheckoutOutcome.orderSuccessful (some 4) ∧
    (checkout dbFirst 0 1 okOracle).1.carts
      = [⟨1, 0, "checked_out"⟩, ⟨4, 0, "active"⟩] ∧
    (checkout dbFirst 0 1 okOracle).1.orders.length = 1 ∧
    (checkout dbSecond 0 2 okOracle).2 = CheckoutOutcome.orderSuccessful none ∧
    (checkout dbSecond 0 2 okOracle).1.carts = dbSecond.carts ∧
    (∃ c ∈ (checkout dbSecond 0 2 okOracle).1.carts, c.id = 2 ∧ c.status = "active") ∧
    (checkout dbSecond 0 2 okOracle).1.orders.length = dbSecond.orders.length + 1 := by
  decide

/-- C2, counterexample: the checkout total of the cart named by the claim
(79.99 and 34.99, each quantity 1) is computed by JavaScript binary64
arithmetic and is not exactly 114.98. -/
theorem checkoutTotalNotExactDecimal :
    jsTotal [((79.99 : ℚ), 1), ((34.99 : ℚ), 1)] ≠ (114.98 : ℚ) := by
  rw [jsTotal_example]; norm_num

/-- C2, amended: the checkout total is the binary64 evaluation of the reduce;
for the named cart it is the dyadic rational 4045499102773903/2^45
(≈ 114.97999999999999), strictly below 114.98 but within 10^-10 of it. -/
theorem checkoutTotalBinary64 :
    jsTotal [((79.99 : ℚ), 1), ((34.99 : ℚ), 1)] = 4045499102773903 / 35184372088832 ∧
    (114.98 : ℚ) - 1 / 10 ^ 10 < 4045499102773903 / 35184372088832 ∧
    (4045499102773903 / 35184372088832 : ℚ) < 114.98 :=
  ⟨jsTotal_example, by norm_num, by norm_num⟩

/-- C3: in every well-formed state each user has at most one cart with
`status = active`, and well-formedness — hence the at-most-one-active-cart
invariant — is preserved by cart resolution, add-to-cart and checkout, under
every transport-failure oracle. -/
theorem activeCartInvariantPreserved (db : DBState) (uid cid iid cid2 : Nat)
    (o1 : LoadCartOracle) (o2 : AddOracle) (o3 : CheckoutOracle) (h : dbWF db) :
    atMostOneActive db ∧
    (dbWF (loadOrCreateCart db uid o1).1 ∧ atMostOneActive (loadOrCreateCart db uid o1).1) ∧
    (dbWF (addToCart db cid iid o2).1 ∧ atMostOneActive (addToCart db cid iid o2).1) ∧
    (dbWF (checkout db uid cid2 o3).1 ∧ atMostOneActive (checkout db uid cid2 o3).1) := by
  have hl : dbWF (loadOrCreateCart db uid o1).1 := loadOrCreateCart_wf h
  have ha : dbWF (addToCart db cid iid o2).1 := addToCart_wf h
  have hc : dbWF (checkout db uid cid2 o3).1 := checkout_wf h
  exact ⟨atMostOneActive_of_wf h, ⟨hl, atMostOneActive_of_wf hl⟩,
         ⟨ha, atMostOneActive_of_wf ha⟩, ⟨hc, atMostOneActive_of_wf hc⟩⟩

theorem activeCartInvariantPreserved_witness :
    dbWF dbFirst ∧
    (atMostOneActive dbFirst ∧
     (dbWF (loadOrCreateCart dbFirst 0 ⟨false, false⟩).1 ∧
      atMostOneActive (loadOrCreateCart dbFirst 0 ⟨false, false⟩).1) ∧
     (dbWF (addToCart dbFirst 1 10 ⟨false, false⟩).1 ∧
      atMostOneActive (addToCart dbFirst 1 10 ⟨false, false⟩).1) ∧
     (dbWF (checkout dbFirst 0 1 okOracle).1 ∧
      atMostOneActive (checkout dbFirst 0 1 okOracle).1)) :=
  ⟨by decide,
   activeCartInvariantPreserved dbFirst 0 1 10 1 ⟨false, false⟩ ⟨false, false⟩ okOracle
     (by decide)⟩

/-- C10: in every well-formed state each user also has at most one cart with
`status = checked_out` — `UNIQUE(user_id, status)` constrains every status
value, not only `active` — and consequently the checkout status UPDATE has no
effect on a cart of a user who already owns a different checked_out cart. -/
theorem checkedOutUniqueBlocksRepeatUpdate (db : DBState) (uid cid : Nat)
    (h : dbWF db) :
    atMostOneCheckedOut db ∧
    ((∃ u ∈ db.carts, u.id = cid ∧ u.user_id = uid) →
     (∃ d ∈ db.carts, d.id ≠ cid ∧ d.user_id = uid ∧ d.status = "checked_out") →
     updateCartStatus db.carts cid ("checked_out") = db.carts) := by
  refine ⟨atMostOneCheckedOut_of_wf h, ?_⟩
  rintro ⟨u, hu, huid, huuid⟩ ⟨d, hd, hdid, hduid, hdst⟩
  have hneg : ¬ (∀ x ∈ db.carts, x.id = cid →
      ∀ y ∈ db.carts, y.id = cid ∨ ¬(y.user_id = x.user_id ∧ y.status = "checked_out")) := by
    intro hg
    rcases hg u hu huid d hd with hc | hc
    · exact hdid hc
    · exact hc ⟨hduid.trans huuid.symm, hdst⟩
  rw [updateCartStatus, if_neg hneg]

theorem checkedOutUniqueBlocksRepeatUpdate_witness :
    dbWF dbSecond ∧
    (atMostOneCheckedOut dbSecond ∧
     ((∃ u ∈ dbSecond.carts, u.id = 2 ∧ u.user_id = 0) →
      (∃ d ∈ dbSecond.carts, d.id ≠ 2 ∧ d.user_id = 0 ∧ d.status = "checked_out") →
      updateCartStatus dbSecond.carts 2 ("checked_out") = dbSecond.carts)) :=
  ⟨by decide, checkedOutUniqueBlocksRepeatUpdate dbSecond 0 2 (by decide)⟩

/-- C4: with the existence query succeeding, add-to-cart on an existing
`(cart, item)` pair reports "already in cart" and performs no write, and on an
absent pair inserts exactly one row with quantity 1; adding the same item to
the same cart twice therefore leaves exactly one `cart_items` row for the
pair, whatever the oracle of the repeat call. -/
theorem addToCartIdempotent (db : DBState) (cid iid : Nat) (o o2 : AddOracle)
    (hlk : o.lookupFails = false) :
    (pairCount db.cartItems cid iid ≠ 0 →
      addToCart db cid iid o = (db, .alreadyInCart)) ∧
    (pairCount db.cartItems cid iid = 0 → o.insertFails = false →
      addToCart db cid iid o =
        ({ db with cartItems := db.cartItems ++ [⟨db.nextId, cid, iid, 1⟩],
                   nextId := db.nextId + 1 }, .added) ∧
      pairCount (addToCart db cid iid o).1.cartItems cid iid = 1) ∧
    (pairCount db.cartItems cid iid = 0 → o.insertFails = false →
      pairCount (addToCart (addToCart db cid iid o).1 cid iid o2).1.cartItems cid iid = 1) := by
  have hins : ∀ h0 : pairCount db.cartItems cid iid = 0, o.insertFails = false →
      addToCart db cid iid o =
        ({ db with cartItems := db.cartItems ++ [⟨db.nextId, cid, iid, 1⟩],
                   nextId := db.nextId + 1 }, .added) := by
    intro h0 hif
    unfold addToCart
    rw [hlk]
    simp only [Bool.false_eq_true, if_false]
    rw [pairCount_zero_iff.1 h0]
    rw [if_neg]
    rintro (hc | hc)
    · rw [hif] at hc; exact absurd hc (by simp)
    · exact hc (pairCount_zero_insertOK h0)
  refine ⟨?_, ?_, ?_⟩
  · intro hne
    unfold addToCart
    rw [hlk]
    simp only [Bool.false_eq_true, if_false]
    have hsome : (db.cartItems.find? fun r => r.cart_id == cid && r.item_id == iid) ≠ none := by
      intro hn; exact hne (pairCount_zero_iff.2 hn)
    rcases Option.ne_none_iff_exists'.1 hsome with ⟨r, hr⟩
    rw [hr]
  · intro h0 hif
    have h1 := hins h0 hif
    refine ⟨h1, ?_⟩
    rw [h1]
    show pairCount (db.cartItems ++ [⟨db.nextId, cid, iid, 1⟩]) cid iid = 1
    rw [pairCount_append_match ⟨db.nextId, cid, iid, 1⟩ rfl rfl, h0]
  · intro h0 hif
    have h1 := hins h0 hif
    have hcount : pairCount (addToCart db cid iid o).1.cartItems cid iid = 1 := by
      rw [h1]
      show pairCount (db.cartItems ++ [⟨db.nextId, cid, iid, 1⟩]) cid iid = 1
      rw [pairCount_append_match ⟨db.nextId, cid, iid, 1⟩ rfl rfl, h0]
    rw [addToCart_existing_noop (by rw [hcount]; exact one_ne_zero)]
    exact hcount

theorem addToCartIdempotent_witness :
    (⟨false, false⟩ : AddOracle).lookupFails = false ∧
    ((pairCount dbBare.cartItems 1 10 ≠ 0 →
       addToCart dbBare 1 10 ⟨false, false⟩ = (dbBare, .alreadyInCart)) ∧
     (pairCount dbBare.cartItems 1 10 = 0 → (⟨false, false⟩ : AddOracle).insertFails = false →
       addToCart dbBare 1 10 ⟨false, false⟩ =
         ({ dbBare with cartItems := dbBare.cartItems ++ [⟨dbBare.nextId, 1, 10, 1⟩],
                        nextId := dbBare.nextId + 1 }, .added) ∧
       pairCount (addToCart dbBare 1 10 ⟨false, false⟩).1.cartItems 1 10 = 1) ∧
     (pairCount dbBare.cartItems 1 10 = 0 → (⟨false, false⟩ : AddOracle).insertFails = false →
       pairCount (addToCart (addToCart dbBare 1 10 ⟨false, false⟩).1 1 10
         ⟨true, false⟩).1.cartItems 1 10 = 1)) :=
  ⟨rfl, addToCartIdempotent dbBare 1 10 ⟨false, false⟩ ⟨true, false⟩ rfl⟩

/-- C5: a checkout whose `cart_items` fetch succeeds but returns no rows for
the active cart aborts with the "cart is empty" failure and leaves the whole
state — in particular the set of order rows — unchanged. -/
theorem checkoutEmptyCartAborts (db : DBState) (uid cid : Nat) (o : CheckoutOracle)
    (hf : o.fetchFails = false)
    (hempty : db.cartItems.filter (fun r => r.cart_id == cid) = []) :
    checkout db uid cid o = (db, .cartEmpty) := by
  have hrows : fetchCartRows db cid = [] := by
    rw [fetchCartRows, hempty]; rfl
  unfold checkout
  rw [if_pos (Or.inr hrows)]

theorem checkoutEmptyCartAborts_witness :
    okOracle.fetchFails = false ∧
    dbBare.cartItems.filter (fun r => r.cart_id == 1) = [] ∧
    checkout dbBare 0 1 okOracle = (dbBare, .cartEmpty) :=
  ⟨rfl, rfl, checkoutEmptyCartAborts dbBare 0 1 okOracle rfl rfl⟩

/-- C8: a checkout whose fetch succeeds on a non-empty cart but whose order
INSERT fails aborts with "failed to create order"; the status UPDATE and the
fresh-cart INSERT of steps 4 and 5 are not reached and the state is returned
unchanged. -/
theorem checkoutOrderInsertFailureAborts (db : DBState) (uid cid : Nat)
    (o : CheckoutOracle) (hf : o.fetchFails = false)
    (hnon : db.cartItems.filter (fun r => r.cart_id == cid) ≠ [])
    (hins : o.orderInsertFails = true) :
    checkout db uid cid o = (db, .failedCreateOrder) := by
  have hrows : fetchCartRows db cid ≠ [] := by
    rw [fetchCartRows]
    intro hmap
    exact hnon (List.map_eq_nil_iff.1 hmap)
  unfold checkout
  rw [if_neg, if_pos hins]
  rintro (hc | hc)
  · rw [hf] at hc; exact absurd hc (by simp)
  · exact hrows hc

theorem checkoutOrderInsertFailureAborts_witness :
    (⟨false, true, false, false⟩ : CheckoutOracle).fetchFails = false ∧
    dbFirst.cartItems.filter (fun r => r.cart_id == 1) ≠ [] ∧
    (⟨false, true, false, false⟩ : CheckoutOracle).orderInsertFails = true ∧
    checkout dbFirst 0 1 ⟨false, true, false, false⟩ = (dbFirst, .failedCreateOrder) :=
  ⟨rfl, by decide, rfl,
   checkoutOrderInsertFailureAborts dbFirst 0 1 ⟨false, true, false, false⟩ rfl (by decide) rfl⟩

/-- C6, counterexample: at the checkout read site a failed `cart_items` fetch
over a non-empty cart produces exactly the same "Cart is empty" error outcome
as a successful fetch over an empty cart, so the empty result is not
distinguished from the failure there. -/
theorem checkoutFetchFailureIndistinguishable :
    (checkout dbFirst 0 1 ⟨true, false, false, false⟩).2 = CheckoutOutcome.cartEmpty ∧
    (checkout dbBare 0 1 okOracle).2 = CheckoutOutcome.cartEmpty := by
  decide

/-- C6, amended: at the item listing, view-cart and order-history read sites
an empty result yields an informational outcome distinct from the failure
outcome, but at the checkout `cart_items` fetch a failed read and an empty
result collapse to the same "Cart is empty" error outcome (and per C7 the
active-cart lookup treats a failed read as an absent cart). -/
theorem readSiteEmptyVsError (db : DBState) (uid cid : Nat) (o o2 : CheckoutOracle)
    (hcEmpty : db.cartItems.filter (fun r => r.cart_id == cid) = [])
    (hoEmpty : db.orders.filter (fun r => r.user_id == uid) = [])
    (hf : o.fetchFails = true) (hf2 : o2.fetchFails = false) :
    loadItems db true = .failedLoad ∧
    (∀ n, ItemsOutcome.itemsLoaded n ≠ .failedLoad) ∧
    viewCart db cid true = .failedLoad ∧
    viewCart db cid false = .emptyCart ∧
    ViewCartOutcome.emptyCart ≠ ViewCartOutcome.failedLoad ∧
    viewOrderHistory db uid true = .failedLoad ∧
    viewOrderHistory db uid false = .noOrders ∧
    OrdersOutcome.noOrders ≠ OrdersOutcome.failedLoad ∧
    (checkout db uid cid o).2 = .cartEmpty ∧
    (checkout db uid cid o2).2 = .cartEmpty := by
  refine ⟨rfl, fun n h => ItemsOutcome.noConfusion h, rfl, ?_, fun h => ViewCartOutcome.noConfusion h,
         rfl, ?_, fun h => OrdersOutcome.noConfusion h, ?_, ?_⟩
  · unfold viewCart
    rw [if_neg (by simp), hcEmpty, if_pos rfl]
  · unfold viewOrderHistory
    rw [if_neg (by simp), hoEmpty, if_pos rfl]
  · unfold checkout
    rw [if_pos (Or.inl hf)]
  · have hrows : fetchCartRows db cid = [] := by rw [fetchCartRows, hcEmpty]; rfl
    unfold checkout
    rw [if_pos (Or.inr hrows)]

theorem readSiteEmptyVsError_witness :
    dbBare.cartItems.filter (fun r => r.cart_id == 1) = [] ∧
    dbBare.orders.filter (fun r => r.user_id == 0) = [] ∧
    (⟨true, false, false, false⟩ : CheckoutOracle).fetchFails = true ∧
    okOracle.fetchFails = false ∧
    (loadItems dbBare true = .failedLoad ∧
     (∀ n, ItemsOutcome.itemsLoaded n ≠ .failedLoad) ∧
     viewCart dbBare 1 true = .failedLoad ∧
     viewCart dbBare 1 false = .emptyCart ∧
     ViewCartOutcome.emptyCart ≠ ViewCartOutcome.failedLoad ∧
     viewOrderHistory dbBare 0 true = .failedLoad ∧
     viewOrderHistory dbBare 0 false = .noOrders ∧
     OrdersOutcome.noOrders ≠ OrdersOutcome.failedLoad ∧
     (checkout dbBare 0 1 ⟨true, false, false, false⟩).2 = .cartEmpty ∧
     (checkout dbBare 0 1 okOracle).2 = .cartEmpty) :=
  ⟨rfl, rfl, rfl, rfl,
   readSiteEmptyVsError dbBare 0 1 ⟨true, false, false, false⟩ okOracle rfl rfl rfl rfl⟩

/-- C7, counterexample: when the active-cart lookup fails for a user who has
no active cart, the code does not report the failure and does not leave state
unchanged — it attempts the INSERT, which succeeds and creates a cart row. -/
theorem failedCartLookupStillInserts :
    (loadOrCreateCart dbEmpty 0 ⟨true, false⟩).1.carts = [⟨1, 0, "active"⟩] ∧
    (loadOrCreateCart dbEmpty 0 ⟨true, false⟩).2 = LoadCartOutcome.created 1 := by
  decide

/-- C7, amended: the lookup error is discarded, so a failed active-cart
lookup is handled as "no cart found" and a cart INSERT is always attempted:
when the user already has an active cart the INSERT violates
`UNIQUE(user_id, status)` and the generic "failed to create cart" error is
reported with state unchanged; when the user has none, a new active cart row
is inserted and no failure is reported at all. -/
theorem failedCartLookupBehaviour (db : DBState) (uid : Nat) (o : LoadCartOracle)
    (hlk : o.lookupFails = true) (hins : o.insertFails = false) :
    ((∃ c ∈ db.carts, c.user_id = uid ∧ c.status = "active") →
      loadOrCreateCart db uid o = (db, .failedCreateCart)) ∧
    (cartsInsertOK db.carts uid ("active") →
      loadOrCreateCart db uid o =
        ({ db with carts := db.carts ++ [⟨db.nextId, uid, "active"⟩],
                   nextId := db.nextId + 1 },
         .created db.nextId)) := by
  have hnone : (if o.lookupFails = true then none
      else db.carts.find? fun c => c.user_id == uid && c.status == "active")
      = (none : Option CartRow) := by
    simp [hlk]
  constructor
  · rintro ⟨c, hc, hcu, hcs⟩
    unfold loadOrCreateCart
    rw [hnone, if_pos (Or.inr fun hok => hok c hc ⟨hcu, hcs⟩)]
  · intro hok
    unfold loadOrCreateCart
    rw [hnone, if_neg]
    rintro (hc | hc)
    · rw [hins] at hc; exact absurd hc (by simp)
    · exact hc hok

theorem failedCartLookupBehaviour_witness :
    (⟨true, false⟩ : LoadCartOracle).lookupFails = true ∧
    (⟨true, false⟩ : LoadCartOracle).insertFails = false ∧
    (((∃ c ∈ dbFirst.carts, c.user_id = 0 ∧ c.status = "active") →
       loadOrCreateCart dbFirst 0 ⟨true, false⟩ = (dbFirst, .failedCreateCart)) ∧
     (cartsInsertOK dbFirst.carts 0 ("active") →
       loadOrCreateCart dbFirst 0 ⟨true, false⟩ =
         ({ dbFirst with carts := dbFirst.carts ++ [⟨dbFirst.nextId, 0, "active"⟩],
                         nextId := dbFirst.nextId + 1 },
          .created dbFirst.nextId))) :=
  ⟨rfl, rfl, failedCartLookupBehaviour dbFirst 0 ⟨true, false⟩ rfl rfl⟩

/-- C9, counterexample: for an identity carrying neither a metadata username
nor an email address, the coalesce of the metadata username and the
split_part local part of the email is NULL, the `username TEXT NOT NULL` constraint
rejects the INSERT and no profile row is created — the trigger has no third
default value. -/
theorem signupWithoutUsernameOrEmailFails :
    handle_new_user [] 0 none none = none := rfl

/-- C9, amended: the profile username is the metadata `username` field when
present, otherwise the local part of the email; there is no further default:
with neither source present the computed username is NULL and the NOT NULL
constraint makes the insert fail, so no profile row is created. -/
theorem signupUsernameDerivation (profiles : List ProfileRow) (uid : Nat)
    (m e : Option String)
    (hfresh : ∀ p ∈ profiles, some p.username ≠ computedUsername m e) :
    (∀ u, m = some u → handle_new_user profiles uid m e = some (profiles ++ [⟨uid, u⟩])) ∧
    (∀ s, m = none → e = some s →
       handle_new_user profiles uid m e = some (profiles ++ [⟨uid, splitPartLocal s⟩])) ∧
    (m = none → e = none → handle_new_user profiles uid m e = none) := by
  refine ⟨?_, ?_, ?_⟩
  · intro u hm
    subst hm
    unfold handle_new_user
    simp only [computedUsername]
    rw [if_pos]
    intro p hp hpu
    exact hfresh p hp (by rw [computedUsername, hpu])
  · intro s hm he
    subst hm; subst he
    unfold handle_new_user
    simp only [computedUsername, Option.map_some']
    rw [if_pos]
    intro p hp hpu
    exact hfresh p hp (by rw [computedUsername]; simp [hpu])
  · intro hm he
    subst hm; subst he
    rfl

theorem signupUsernameDerivation_witness :
    (∀ p ∈ ([] : List ProfileRow), some p.username ≠ computedUsername (some ("alice")) none) ∧
    ((∀ u, (some ("alice") : Option String) = some u →
        handle_new_user [] 7 (some ("alice")) none = some ([] ++ [⟨7, u⟩])) ∧
     (∀ s, (some ("alice") : Option String) = none → (none : Option String) = some s →
        handle_new_user [] 7 (some ("alice")) none = some ([] ++ [⟨7, splitPartLocal s⟩])) ∧
     ((some ("alice") : Option String) = none → (none : Option String) = none →
        handle_new_user [] 7 (some ("alice")) none = none)) :=
  ⟨by simp, signupUsernameDerivation [] 7 (some ("alice")) none (by simp)⟩
